import Mathlib

/-!
Shallow embedding of the DeeperSeek repository's response wait-and-extract
engine (`DeeperSeek/DeeperSeek.py`) and the session operations around it.

The browser/DOM is modelled as an environment `Env` of deterministic oracles:
each polling selector is a function of a poll tick (one tick per failed poll
attempt), and the one-shot `select_all` fetches are `Option`-valued (with
`none` modelling a raising locator).  Every browser interaction is recorded
in an event log, so claims about which operations were or were not attempted
are statements about the log.
-/

namespace DeeperSeek

/-! ### Python string primitives used by the source -/

/-- Python `str.lower()`. -/
def pyToLower (s : String) : String := String.mk (s.data.map Char.toLower)

/-- Strip leading and trailing whitespace from a character list. -/
def trimChars (cs : List Char) : List Char :=
  ((cs.dropWhile Char.isWhitespace).reverse.dropWhile Char.isWhitespace).reverse

/-- Python `str.strip()` (whitespace strip on both ends). -/
def pyStrip (s : String) : String := String.mk (trimChars s.data)

/-- Worker for `pySplit`: split on whitespace runs, dropping empty fields;
`acc` holds the reversed characters of the current field. -/
def pySplitAux : List Char → List Char → List String
  | [], [] => []
  | [], a :: as => [String.mk (a :: as).reverse]
  | c :: cs, acc =>
    if c.isWhitespace then
      match acc with
      | [] => pySplitAux cs []
      | a :: as => String.mk (a :: as).reverse :: pySplitAux cs []
    else pySplitAux cs (c :: acc)

/-- Python `str.split()` with no argument: split on whitespace runs,
dropping empty fields. -/
def pySplit (s : String) : List String := pySplitAux s.data []

/-- Python `int(s)` on a string: optional surrounding whitespace, optional
sign, then one or more decimal digits; anything else raises `ValueError`
(modelled as `none`).  In particular `int("12.5")` is a `ValueError`. -/
def pyInt (s : String) : Option Int :=
  let cs := trimChars s.data
  let signed : Int × List Char :=
    match cs with
    | '-' :: rest => (-1, rest)
    | '+' :: rest => (1, rest)
    | _ => (1, cs)
  match signed with
  | (sign, digits) =>
    if digits ≠ [] ∧ digits.all Char.isDigit then
      some (sign * (digits.foldl (fun acc d => acc * 10 + (d.toNat - '0'.toNat)) 0 : Nat))
    else none

/-- Split a character list into its leading run of decimal digits and the
rest (the maximal-munch step of `\d+`). -/
def takeDigits : List Char → List Char × List Char
  | [] => ([], [])
  | c :: cs =>
    if c.isDigit then
      match takeDigits cs with
      | (d, r) => (c :: d, r)
    else ([], c :: cs)

/-- Drop a literal prefix, or fail. -/
def afterPrefix? (p cs : List Char) : Option (List Char) :=
  if p.isPrefixOf cs then some (cs.drop p.length) else none

/-- Python `re.match(r"found \d+ results", s)` viewed as a Boolean: the
pattern must match a prefix of `s`. -/
def matchFoundResults (s : String) : Bool :=
  match afterPrefix? "found ".toList s.toList with
  | none => false
  | some r1 =>
    match takeDigits r1 with
    | (d, r2) => d ≠ [] && " results".toList.isPrefixOf r2

/-- Python `re.match(r"thought for \d+(\.\d+)? seconds", s)` viewed as a
Boolean: the pattern must match a prefix of `s`. -/
def matchThoughtSeconds (s : String) : Bool :=
  match afterPrefix? "thought for ".toList s.toList with
  | none => false
  | some r1 =>
    match takeDigits r1 with
    | ([], _) => false
    | (_ :: _, r2) =>
      if " seconds".toList.isPrefixOf r2 then true
      else
        match r2 with
        | '.' :: r3 =>
          match takeDigits r3 with
          | ([], _) => false
          | (_ :: _, r4) => " seconds".toList.isPrefixOf r4
        | _ => false

/-! ### Data model (`internal/objects.py`) -/

/-- `internal/objects.py` `SearchResult`. -/
structure SearchResult where
  image_url : String
  website : String
  date : String
  index : Int
  title : String
  description : String
deriving DecidableEq, Repr

/-- `internal/objects.py` `Response`. -/
structure Response where
  text : String
  chat_id : Option String
  deepthink_duration : Option Int
  deepthink_content : Option String
  search_results : Option (List SearchResult)
deriving DecidableEq, Repr

/-- The exceptions that can escape the modelled operations
(`internal/exceptions.py` plus the Python builtins the code can raise). -/
inductive PyError where
  | missingInitialization
  | serverDown
  | missingCredentials
  | invalidCredentials
  | couldNotFindElement
  | invalidChatID
  | valueError
  | typeError
  | indexError
  | locatorError
deriving DecidableEq, Repr

/-! ### Session state and browser environment -/

/-- The mutable attributes of a `DeepSeek` object that the modelled
operations read or write.  `chat_id_attr` is the attribute named `chat_id`
that `reset_chat` creates (distinct from the private `_chat_id`); `none`
means the attribute was never assigned. -/
structure SessionState where
  initialized : Bool
  _chat_id : Option String
  chat_id_attr : Option String
  deepthink_enabled : Bool
  search_enabled : Bool
  _token : Option String
  _email : Option String
  _password : Option String
deriving DecidableEq, Repr

/-- One entry of the DOM search-results list (`_filter_search_results`).
`imgSrc` is the `src` of a nested `<img>`: `none` models a missing image,
on which the source's `find('img')['src']` raises `TypeError`.
`indexText` is the raw display text parsed with `int(...)`. -/
structure SearchEntry where
  imgSrc : Option String
  website : String
  date : String
  indexText : String
  title : String
  description : String
deriving DecidableEq, Repr

/-- One element of the completed-response collection
(selector `response_generated`): its markdown blocks (each already rendered
to text by the external `get_text` extractor), whether the action toolbar
div is present in its subtree, and the visible text of its child slots. -/
structure RespElem where
  markdownBlocks : List String
  hasToolbar : Bool
  children : List String
deriving DecidableEq, Repr

/-- The browser/DOM oracle.  Polled selectors are functions of the poll
tick; one-shot `select_all` fetches are `Option`-valued, `none` modelling a
raising locator call. A search panel is represented by the list of its
children, each child by the list of `SearchEntry` values under it; a
deepthink panel element is the list of its `<p>` paragraph texts. -/
structure Env where
  response_generating : Nat → Bool
  regen_loading_icon : Nat → Bool
  response_generated : Nat → Option (List RespElem)
  search_results_panels : Option (List (List (List SearchEntry)))
  deepthink_content_panels : Option (List (List String))
  toolbars : Option (List Nat)
  textbox_appears : Bool
  chat_id_in_url : String → Bool
  delete_button_found : Bool
  localStorage_token : Option String

/-- Browser interactions, recorded in order. -/
inductive Event where
  | pollGenerating (t : Nat)
  | pollRegenLoading (t : Nat)
  | pollGenerated (t : Nat)
  | pollToolbar (t : Nat)
  | refetchGenerated (t : Nat)
  | clickSearchChild (label : String)
  | fetchSearchPanel
  | fetchDeepthinkPanel
  | selectTextbox
  | typeText (s : String)
  | typeChar (c : Char)
  | selectSendOptionsParent
  | clickDeepthinkToggle
  | clickSearchToggle
  | clickSendButton
  | selectAllToolbars
  | clickRegenButton
  | evaluateScript (js : String)
  | reloadPage
  | navigate (url : String)
  | waitForTextbox
  | sleepSeconds (n : Nat)
  | selectResetChatButton
  | clickResetChatButton
  | clickProfileButton
  | clickProfileDropdown
  | clickDeleteChatsButton
  | clickConfirmDeletionButton
  | typeEmail
  | typePassword
  | clickConfirmCheckbox
  | clickLoginButton
deriving DecidableEq, Repr

/-- Outcome of one session operation: the returned value or raised
exception, the session state after the call, and the browser event log. -/
structure SessStep (α : Type) where
  result : Except PyError α
  state : SessionState
  events : List Event
deriving Repr

/-! ### The wait-and-extract engine (`_get_response`) -/

/-- Phase 1 of `_get_response`: poll for the "generating" indicator
(`response_generating` for a fresh send, `regen_loading_icon` for a
regeneration) until it is observed or the deadline passes.  One fuel unit
is consumed per failed attempt; callers pass `fuel ≥ end_time - t`, so fuel
exhaustion coincides with the deadline check `time() < end_time`. -/
def waitGenerationStarted (env : Env) (regen : Bool) (end_time : Nat) :
    Nat → Nat → Option Nat × List Event
  | _, 0 => (none, [])
  | t, fuel + 1 =>
    if t < end_time then
      let ev := if regen then Event.pollRegenLoading t else Event.pollGenerating t
      let hit := if regen then env.regen_loading_icon t else env.response_generating t
      if hit then (some t, [ev])
      else
        match waitGenerationStarted env regen end_time (t + 1) fuel with
        | (r, evs) => (r, ev :: evs)
    else (none, [])

/-- Phase 2 of `_get_response`: poll `select_all(response_generated)` until
it yields a non-empty collection or the deadline passes.  A raising locator
(`none`) and an empty collection both mean "keep polling"; a deadline exit
always leaves a falsy collection, so the source returns `None`. -/
def waitGenerationCompleted (env : Env) (end_time : Nat) :
    Nat → Nat → Option (Nat × List RespElem) × List Event
  | _, 0 => (none, [])
  | t, fuel + 1 =>
    if t < end_time then
      match env.response_generated t with
      | some (e :: es) => (some (t, e :: es), [Event.pollGenerated t])
      | some [] =>
        match waitGenerationCompleted env end_time (t + 1) fuel with
        | (r, evs) => (r, Event.pollGenerated t :: evs)
      | none =>
        match waitGenerationCompleted env end_time (t + 1) fuel with
        | (r, evs) => (r, Event.pollGenerated t :: evs)
    else (none, [])

/-- Phase 3 of `_get_response` (regeneration only): re-fetch the completed
collection each attempt until the toolbar is present in the last element's
subtree, then re-query once more and exit.  A fetch that returns an empty
collection makes the source index `[-1]` into an empty list, an
`IndexError`; a raising fetch is caught and retried. -/
def waitToolbarReady (env : Env) (end_time : Nat) :
    Nat → Nat → Except PyError (Option (Nat × List RespElem)) × List Event
  | _, 0 => (.ok none, [])
  | t, fuel + 1 =>
    if t < end_time then
      match env.response_generated t with
      | none =>
        match waitToolbarReady env end_time (t + 1) fuel with
        | (r, evs) => (r, Event.pollToolbar t :: evs)
      | some [] => (.error .indexError, [Event.pollToolbar t])
      | some (e :: es) =>
        match (e :: es).getLast? with
        | none => (.error .indexError, [Event.pollToolbar t])
        | some last =>
          if last.hasToolbar then
            (.ok (some (t, e :: es)), [Event.pollToolbar t, Event.refetchGenerated t])
          else
            match waitToolbarReady env end_time (t + 1) fuel with
            | (r, evs) => (r, Event.pollToolbar t :: evs)
    else (.ok none, [])

/-- Flatten the markdown blocks of a completed-response element:
`"\n\n".join(get_text(str(block)).strip() for block in markdown_blocks)`. -/
def response_text_of (e : RespElem) : String :=
  String.intercalate "\n\n" (e.markdownBlocks.map pyStrip)

/-- The lowercase busy sentinel the source compares against. -/
def busySentinel : String := "the server is busy. please try again later."

/-- `_filter_search_results`: build a `SearchResult` per entry; a missing
image raises `TypeError` (subscripting `None`), a non-integer index text
raises `ValueError`, each aborting the whole call. -/
def _filter_search_results : List SearchEntry → Except PyError (List SearchResult)
  | [] => .ok []
  | entry :: rest =>
    match entry.imgSrc with
    | none => .error .typeError
    | some src =>
      match pyInt entry.indexText with
      | none => .error .valueError
      | some n =>
        match _filter_search_results rest with
        | .error e => .error e
        | .ok rs =>
          .ok ({ image_url := src, website := entry.website, date := entry.date,
                 index := n, title := entry.title, description := entry.description } :: rs)

/-- The optional fields of a `Response` accumulated while scanning the
affordance slots. -/
structure ExtractAcc where
  search_results : Option (List SearchResult)
  deepthink_duration : Option Int
  deepthink_content : Option String
deriving DecidableEq, Repr

/-- Process one affordance-slot child of the last completed-response
element exactly as the loop body over `children[1:3]` does: first the
search branch (guarded by the label pattern AND the stored search flag),
then the deepthink branch (guarded by its pattern AND the stored deepthink
flag). -/
def processChild (env : Env) (search_enabled deepthink_enabled : Bool)
    (acc : ExtractAcc) (child : String) : Except PyError ExtractAcc × List Event :=
  let searchStep : Except PyError ExtractAcc × List Event :=
    if matchFoundResults (pyToLower child) && search_enabled then
      let evs := [Event.clickSearchChild child, Event.fetchSearchPanel]
      match env.search_results_panels with
      | none => (.error .locatorError, evs)
      | some panels =>
        match panels.getLast? with
        | none => (.error .indexError, evs)
        | some panel =>
          match panel[1]? with
          | none => (.error .indexError, evs)
          | some entries =>
            match _filter_search_results entries with
            | .error e => (.error e, evs)
            | .ok rs => (.ok { acc with search_results := some rs }, evs)
    else (.ok acc, [])
  match searchStep with
  | (.error e, evs) => (.error e, evs)
  | (.ok acc1, evs1) =>
    if matchThoughtSeconds (pyToLower child) && deepthink_enabled then
      match (pySplit child)[2]? with
      | none => (.error .indexError, evs1)
      | some tok =>
        match pyInt tok with
        | none => (.error .valueError, evs1)
        | some n =>
          let acc2 := { acc1 with deepthink_duration := some n }
          let evs2 := evs1 ++ [Event.fetchDeepthinkPanel]
          match env.deepthink_content_panels with
          | none => (.error .locatorError, evs2)
          | some panels =>
            match panels.getLast? with
            | none => (.error .indexError, evs2)
            | some ps =>
              (.ok { acc2 with
                       deepthink_content :=
                         some (String.intercalate "\n" (ps.map pyStrip)) }, evs2)
    else (.ok acc1, evs1)

/-- Fold `processChild` over the affordance slots in order. -/
def processChildren (env : Env) (search_enabled deepthink_enabled : Bool) :
    ExtractAcc → List String → Except PyError ExtractAcc × List Event
  | acc, [] => (.ok acc, [])
  | acc, c :: cs =>
    match processChild env search_enabled deepthink_enabled acc c with
    | (.error e, evs) => (.error e, evs)
    | (.ok acc1, evs) =>
      match processChildren env search_enabled deepthink_enabled acc1 cs with
      | (r, evs2) => (r, evs ++ evs2)

/-- Phase 4 of `_get_response`: flatten the last completed element's
markdown blocks into `text`, raise `ServerDown` on the busy sentinel, then
scan `children[1:3]` for the search and deepthink affordances and assemble
the `Response`. -/
def extractResponse (env : Env) (st : SessionState) (e : RespElem) :
    Except PyError Response × List Event :=
  let text := response_text_of e
  if pyToLower text = busySentinel then (.error .serverDown, [])
  else
    let slots := (e.children.drop 1).take 2
    match processChildren env st.search_enabled st.deepthink_enabled
        ⟨none, none, none⟩ slots with
    | (.error err, evs) => (.error err, evs)
    | (.ok acc, evs) =>
      (.ok { text := text, chat_id := st._chat_id,
             deepthink_duration := acc.deepthink_duration,
             deepthink_content := acc.deepthink_content,
             search_results := acc.search_results }, evs)

/-- `_get_response`: the four-phase wait-and-extract engine.  `timeout`
plays the role of `end_time = time() + timeout` with the call entering at
tick 0; each failed poll attempt consumes one tick. -/
def _get_response (st : SessionState) (env : Env) (timeout : Nat) (regen : Bool) :
    SessStep (Option Response) :=
  if !st.initialized then ⟨.error .missingInitialization, st, []⟩
  else
    let end_time := timeout
    match waitGenerationStarted env regen end_time 0 end_time with
    | (none, evs1) => ⟨.ok none, st, evs1⟩
    | (some t1, evs1) =>
      match waitGenerationCompleted env end_time t1 (end_time - t1) with
      | (none, evs2) => ⟨.ok none, st, evs1 ++ evs2⟩
      | (some (t2, l), evs2) =>
        if regen then
          match waitToolbarReady env end_time t2 (end_time - t2) with
          | (.error e, evs3) => ⟨.error e, st, evs1 ++ evs2 ++ evs3⟩
          | (.ok none, evs3) => ⟨.ok none, st, evs1 ++ evs2 ++ evs3⟩
          | (.ok (some (_, l3)), evs3) =>
            match l3.getLast? with
            | none => ⟨.error .indexError, st, evs1 ++ evs2 ++ evs3⟩
            | some last =>
              match extractResponse env st last with
              | (r, evs4) => ⟨r.map some, st, evs1 ++ evs2 ++ evs3 ++ evs4⟩
        else
          match l.getLast? with
          | none => ⟨.error .indexError, st, evs1 ++ evs2⟩
          | some last =>
            match extractResponse env st last with
            | (r, evs4) => ⟨r.map some, st, evs1 ++ evs2 ++ evs4⟩

/-! ### The send/regenerate layer and other session operations -/

/-- The timeout adjustment at the top of `send_message`:
`timeout += 20 if deepthink else 0` then `timeout += 60 if search else 0`. -/
def effectiveTimeout (timeout : Nat) (deepthink search : Bool) : Nat :=
  let timeout := timeout + (if deepthink then 20 else 0)
  let timeout := timeout + (if search then 60 else 0)
  timeout

/-- The toggle section of `send_message`: click a mode toggle and store the
requested flag only when the requested mode differs from the stored one. -/
def applyToggles (st : SessionState) (deepthink search : Bool) :
    List Event × SessionState :=
  let step1 : List Event × SessionState :=
    if deepthink != st.deepthink_enabled then
      ([Event.clickDeepthinkToggle], { st with deepthink_enabled := deepthink })
    else ([], st)
  match step1 with
  | (evs1, st1) =>
    if search != st1.search_enabled then
      (evs1 ++ [Event.clickSearchToggle], { st1 with search_enabled := search })
    else (evs1, st1)

/-- `send_message`: guard, adjust the timeout, type the message (slow mode
types character by character), apply the mode toggles, click send, then
delegate to `_get_response` with the adjusted timeout.  The slow-mode
inter-character delay is real time only and is not modelled. -/
def send_message (st : SessionState) (env : Env) (message : String)
    (slow_mode deepthink search : Bool) (timeout : Nat) :
    SessStep (Option Response) :=
  if !st.initialized then ⟨.error .missingInitialization, st, []⟩
  else
    let timeout := effectiveTimeout timeout deepthink search
    let typeEvs := if slow_mode then message.toList.map Event.typeChar
                   else [Event.typeText message]
    match applyToggles st deepthink search with
    | (toggleEvs, st1) =>
      let pre := Event.selectTextbox :: typeEvs
                   ++ Event.selectSendOptionsParent :: toggleEvs
                   ++ [Event.clickSendButton]
      match _get_response st1 env timeout false with
      | ⟨r, st2, evs⟩ => ⟨r, st2, pre ++ evs⟩

/-- `regenerate_response`: guard, fetch the response toolbars, click the
second child of the last one, then delegate to `_get_response` with
`regen = True`.  Each toolbar is modelled by its child count; an empty
collection makes `toolbar[-1]` an `IndexError`, as does a toolbar with
fewer than two children. -/
def regenerate_response (st : SessionState) (env : Env) (timeout : Nat) :
    SessStep (Option Response) :=
  if !st.initialized then ⟨.error .missingInitialization, st, []⟩
  else
    match env.toolbars with
    | none => ⟨.error .locatorError, st, [Event.selectAllToolbars]⟩
    | some ts =>
      match ts.getLast? with
      | none => ⟨.error .indexError, st, [Event.selectAllToolbars]⟩
      | some childCount =>
        if childCount < 2 then ⟨.error .indexError, st, [Event.selectAllToolbars]⟩
        else
          match _get_response st env timeout true with
          | ⟨r, st2, evs⟩ =>
            ⟨r, st2, Event.selectAllToolbars :: Event.clickRegenButton :: evs⟩

/-- `retrieve_token`: guard, then read the token from local storage. -/
def retrieve_token (st : SessionState) (env : Env) : SessStep (Option String) :=
  if !st.initialized then ⟨.error .missingInitialization, st, []⟩
  else ⟨.ok env.localStorage_token, st,
        [Event.evaluateScript "JSON.parse localStorage userToken value"]⟩

/-- `reset_chat`: guard, click the reset button, then assign the empty
string to the attribute named `chat_id` — a distinct attribute from the
private `_chat_id`, which is left untouched. -/
def reset_chat (st : SessionState) : SessStep Unit :=
  if !st.initialized then ⟨.error .missingInitialization, st, []⟩
  else ⟨.ok (), { st with chat_id_attr := some "" },
        [Event.selectResetChatButton, Event.clickResetChatButton]⟩

/-- `logout`: guard, remove the token from local storage, reload. -/
def logout (st : SessionState) : SessStep Unit :=
  if !st.initialized then ⟨.error .missingInitialization, st, []⟩
  else ⟨.ok (), st,
        [Event.evaluateScript "localStorage.removeItem userToken", Event.reloadPage]⟩

/-- Python truthiness of an optional string (`None` and `""` are falsy). -/
def pyTruthy : Option String → Bool
  | none => false
  | some s => s ≠ ""

/-- `_login_classic`: guard, type the credentials, confirm and submit, then
wait for the textbox; a missing textbox means the credentials were wrong. -/
def _login_classic (st : SessionState) (env : Env) : SessStep Unit :=
  if !st.initialized then ⟨.error .missingInitialization, st, []⟩
  else
    let evs := [Event.typeEmail, Event.typePassword, Event.clickConfirmCheckbox,
                Event.clickLoginButton, Event.waitForTextbox]
    if env.textbox_appears then ⟨.ok (), st, evs⟩
    else ⟨.error .invalidCredentials, st, evs⟩

/-- `_login`: guard, store the token in local storage, reload, wait, then
check for the textbox; on failure fall back to the classic login when an
email and password are present, otherwise raise `InvalidCredentials`. -/
def _login (st : SessionState) (env : Env) : SessStep Unit :=
  if !st.initialized then ⟨.error .missingInitialization, st, []⟩
  else
    let evs := [Event.evaluateScript "localStorage.setItem userToken",
                Event.reloadPage, Event.sleepSeconds 2, Event.waitForTextbox]
    if env.textbox_appears then ⟨.ok (), st, evs⟩
    else
      if pyTruthy st._email && pyTruthy st._password then
        match _login_classic st env with
        | ⟨r, st1, evs1⟩ => ⟨r, st1, evs ++ evs1⟩
      else ⟨.error .invalidCredentials, st, evs⟩

/-- `switch_account`: guard, require a token or an email/password pair,
log out, overwrite the stored credentials, then log back in with the
appropriate method. -/
def switch_account (st : SessionState) (env : Env)
    (token email password : Option String) : SessStep Unit :=
  if !st.initialized then ⟨.error .missingInitialization, st, []⟩
  else
    if !pyTruthy token && !(pyTruthy email && pyTruthy password) then
      ⟨.error .missingCredentials, st, []⟩
    else
      match logout st with
      | ⟨.error e, st1, evs1⟩ => ⟨.error e, st1, evs1⟩
      | ⟨.ok _, st1, evs1⟩ =>
        let st2 := { st1 with _token := token, _email := email, _password := password }
        match (if pyTruthy st2._token then _login st2 env else _login_classic st2 env) with
        | ⟨r, st3, evs2⟩ => ⟨r, st3, evs1 ++ evs2⟩

/-- `delete_chats`: guard, open the profile dropdown, find the delete
button by its text (raising `CouldNotFindElement` when absent), click it
and confirm. -/
def delete_chats (st : SessionState) (env : Env) : SessStep Unit :=
  if !st.initialized then ⟨.error .missingInitialization, st, []⟩
  else
    let evs := [Event.clickProfileButton, Event.clickProfileDropdown]
    if env.delete_button_found then
      ⟨.ok (), st, evs ++ [Event.clickDeleteChatsButton, Event.clickConfirmDeletionButton]⟩
    else ⟨.error .couldNotFindElement, st, evs⟩

/-- `switch_chat`: guard, navigate to the chat URL, wait for the textbox
(raising `CouldNotFindElement` when absent), verify the chat id appears in
the URL (raising `InvalidChatID` otherwise), then store the new id in
`_chat_id`. -/
def switch_chat (st : SessionState) (env : Env) (chat_id : String) : SessStep Unit :=
  if !st.initialized then ⟨.error .missingInitialization, st, []⟩
  else
    let evs := [Event.navigate chat_id, Event.waitForTextbox]
    if !env.textbox_appears then ⟨.error .couldNotFindElement, st, evs⟩
    else
      let evs := evs ++ [Event.evaluateScript "window.location.href.includes chat_id"]
      if !env.chat_id_in_url chat_id then ⟨.error .invalidChatID, st, evs⟩
      else ⟨.ok (), { st with _chat_id := some chat_id }, evs⟩

/-- `switch_theme`: guard, write the theme preference to local storage,
reload. -/
def switch_theme (st : SessionState) (theme : String) : SessStep Unit :=
  if !st.initialized then ⟨.error .missingInitialization, st, []⟩
  else ⟨.ok (), st,
        [Event.evaluateScript ("localStorage.setItem themePreference " ++ theme),
         Event.reloadPage]⟩

/-! ### Helper classifiers and lemmas -/

/-- Recognize a phase-1 poll event (the only selector reads phase 1 does). -/
def isPhase1Poll : Event → Bool
  | .pollGenerating _ => true
  | .pollRegenLoading _ => true
  | _ => false

/-- Recognize a click on a search affordance child. -/
def isSearchClick : Event → Bool
  | .clickSearchChild _ => true
  | _ => false

/-! ### Concrete fixtures used by closed theorems and witnesses -/

/-- An initialized session with a current conversation id and both mode
flags off. -/
def initState : SessionState :=
  { initialized := true, _chat_id := some "chat0", chat_id_attr := none,
    deepthink_enabled := false, search_enabled := false,
    _token := some "tok", _email := none, _password := none }

/-- The same session before `initialize` has completed. -/
def uninitState : SessionState := { initState with initialized := false }

/-- An initialized session with the deepthink flag on. -/
def deepthinkState : SessionState := { initState with deepthink_enabled := true }

/-- A benign environment: the generating indicator is present at once, all
one-shot fetches raise, auxiliary lookups succeed. -/
def envBase : Env :=
  { response_generating := fun _ => true,
    regen_loading_icon := fun _ => false,
    response_generated := fun _ => none,
    search_results_panels := none,
    deepthink_content_panels := some [["Reasoning paragraph"]],
    toolbars := some [3],
    textbox_appears := true,
    chat_id_in_url := fun _ => true,
    delete_button_found := true,
    localStorage_token := some "tok" }

/-- An environment where the phase-1 generating indicator never appears. -/
def envNever : Env := { envBase with response_generating := fun _ => false }

/-- A completed element whose deepthink affordance label carries a
fractional duration. -/
def thoughtFracElem : RespElem :=
  { markdownBlocks := ["Hi"], hasToolbar := true,
    children := ["main", "Thought for 12.5 seconds"] }

/-- The same element with an integer duration label. -/
def thoughtIntElem : RespElem :=
  { markdownBlocks := ["Hi"], hasToolbar := true,
    children := ["main", "Thought for 12 seconds"] }

def envThoughtFrac : Env :=
  { envBase with response_generated := fun _ => some [thoughtFracElem] }

def envThoughtInt : Env :=
  { envBase with response_generated := fun _ => some [thoughtIntElem] }

/-- The successful `Response` extracted from `envThoughtInt`. -/
def thoughtIntResp : Response :=
  { text := "Hi", chat_id := some "chat0", deepthink_duration := some 12,
    deepthink_content := some "Reasoning paragraph", search_results := none }

/-- A completed element with zero markdown blocks. -/
def emptyBlocksElem : RespElem :=
  { markdownBlocks := [], hasToolbar := true, children := [] }

def envEmptyBlocks : Env :=
  { envBase with response_generated := fun _ => some [emptyBlocksElem] }

/-- The `Response` the engine builds from `emptyBlocksElem`: a success with
empty text. -/
def emptyTextResp : Response :=
  { text := "", chat_id := some "chat0", deepthink_duration := none,
    deepthink_content := none, search_results := none }

/-- A completed element whose flattened text is the busy sentinel. -/
def busyElem : RespElem :=
  { markdownBlocks := ["The server is busy. Please try again later."],
    hasToolbar := true, children := [] }

def envBusy : Env :=
  { envBase with response_generated := fun _ => some [busyElem] }

/-- A completed element whose affordance slot matches `found <N> results`. -/
def foundElem : RespElem :=
  { markdownBlocks := ["ans"], hasToolbar := true,
    children := ["main", "Found 3 results"] }

def envFound : Env :=
  { envBase with response_generated := fun _ => some [foundElem] }

/-- The successful `Response` extracted from `envFound` with search off. -/
def foundOffResp : Response :=
  { text := "ans", chat_id := some "chat0", deepthink_duration := none,
    deepthink_content := none, search_results := none }

theorem waitGenerationStarted_events (env : Env) (regen : Bool) (end_time : Nat) :
    ∀ fuel t, ∀ e ∈ (waitGenerationStarted env regen end_time t fuel).2,
      isPhase1Poll e = true := by
  intro fuel
  induction fuel with
  | zero => intro t e he; simp [waitGenerationStarted] at he
  | succ f ih =>
    intro t e he
    rcases hw : waitGenerationStarted env regen end_time (t + 1) f with ⟨r, evs⟩
    simp only [waitGenerationStarted, hw] at he
    by_cases hlt : t < end_time
    · simp only [hlt, if_true] at he
      by_cases hhit : (if regen then env.regen_loading_icon t else env.response_generating t) = true
      · simp only [hhit, if_true, List.mem_singleton] at he
        subst he
        cases regen <;> simp [isPhase1Poll]
      · simp only [Bool.not_eq_true] at hhit
        simp only [hhit, Bool.false_eq_true, if_false, List.mem_cons] at he
        rcases he with he | he
        · subst he; cases regen <;> simp [isPhase1Poll]
        · have := ih (t + 1) e
          rw [hw] at this
          exact this he
    · simp [hlt] at he

theorem waitGenerationStarted_none (env : Env) (regen : Bool) (end_time : Nat)
    (hnever : ∀ u, u < end_time →
      (if regen then env.regen_loading_icon u else env.response_generating u) = false) :
    ∀ fuel t, (waitGenerationStarted env regen end_time t fuel).1 = none := by
  intro fuel
  induction fuel with
  | zero => intro t; simp [waitGenerationStarted]
  | succ f ih =>
    intro t
    rcases hw : waitGenerationStarted env regen end_time (t + 1) f with ⟨r, evs⟩
    simp only [waitGenerationStarted, hw]
    by_cases hlt : t < end_time
    · simp only [hlt, if_true, hnever t hlt, Bool.false_eq_true, if_false]
      have := ih (t + 1)
      rw [hw] at this
      exact this
    · simp [hlt]

theorem waitGenerationCompleted_no_click (env : Env) (end_time : Nat) :
    ∀ fuel t, ∀ e ∈ (waitGenerationCompleted env end_time t fuel).2,
      isSearchClick e = false := by
  intro fuel
  induction fuel with
  | zero => intro t e he; simp [waitGenerationCompleted] at he
  | succ f ih =>
    intro t e he
    rcases hw : waitGenerationCompleted env end_time (t + 1) f with ⟨r, evs⟩
    simp only [waitGenerationCompleted, hw] at he
    by_cases hlt : t < end_time
    · simp only [hlt, if_true] at he
      rcases hg : env.response_generated t with _ | l
      · simp only [hg, List.mem_cons] at he
        rcases he with he | he
        · subst he; rfl
        · have := ih (t + 1) e
          rw [hw] at this
          exact this he
      · rcases l with _ | ⟨x, xs⟩
        · simp only [hg, List.mem_cons] at he
          rcases he with he | he
          · subst he; rfl
          · have := ih (t + 1) e
            rw [hw] at this
            exact this he
        · simp only [hg, List.mem_singleton] at he
          subst he; rfl
    · simp [hlt] at he

theorem waitGenerationCompleted_none (env : Env) (end_time : Nat)
    (hempty : ∀ u, env.response_generated u = none ∨ env.response_generated u = some []) :
    ∀ fuel t, (waitGenerationCompleted env end_time t fuel).1 = none := by
  intro fuel
  induction fuel with
  | zero => intro t; simp [waitGenerationCompleted]
  | succ f ih =>
    intro t
    rcases hw : waitGenerationCompleted env end_time (t + 1) f with ⟨r, evs⟩
    have ihr : r = none := by have := ih (t + 1); rw [hw] at this; exact this
    subst ihr
    simp only [waitGenerationCompleted, hw]
    by_cases hlt : t < end_time
    · rcases hempty t with hg | hg <;> simp [hlt, hg]
    · simp [hlt]

theorem waitToolbarReady_no_click (env : Env) (end_time : Nat) :
    ∀ fuel t, ∀ e ∈ (waitToolbarReady env end_time t fuel).2,
      isSearchClick e = false := by
  intro fuel
  induction fuel with
  | zero => intro t e he; simp [waitToolbarReady] at he
  | succ f ih =>
    intro t e he
    rcases hw : waitToolbarReady env end_time (t + 1) f with ⟨r, evs⟩
    simp only [waitToolbarReady, hw] at he
    by_cases hlt : t < end_time
    · simp only [hlt, if_true] at he
      rcases hg : env.response_generated t with _ | l
      · simp only [hg] at he
        rcases List.mem_cons.mp he with he1 | he1
        · subst he1; rfl
        · have := ih (t + 1) e
          rw [hw] at this
          exact this he1
      · rcases l with _ | ⟨x, xs⟩
        · simp only [hg, List.mem_singleton] at he
          subst he; rfl
        · simp only [hg] at he
          rcases hlast : (x :: xs).getLast? with _ | last
          · simp only [hlast, List.mem_singleton] at he
            subst he; rfl
          · simp only [hlast] at he
            by_cases htb : last.hasToolbar = true
            · rw [if_pos htb] at he
              rcases List.mem_cons.mp he with he1 | he1
              · subst he1; rfl
              · rcases List.mem_singleton.mp he1 with he2
                subst he2; rfl
            · rw [if_neg htb] at he
              rcases List.mem_cons.mp he with he1 | he1
              · subst he1; rfl
              · have := ih (t + 1) e
                rw [hw] at this
                exact this he1
    · simp [hlt] at he

theorem processChild_no_click (env : Env) (d : Bool) (acc : ExtractAcc) (c : String) :
    (∀ e ∈ (processChild env false d acc c).2, isSearchClick e = false) ∧
    (∀ acc', (processChild env false d acc c).1 = .ok acc' →
      acc'.search_results = acc.search_results) := by
  unfold processChild
  simp only [Bool.and_false, Bool.false_eq_true, if_false]
  by_cases hth : (matchThoughtSeconds (pyToLower c) && d) = true
  · simp only [hth, if_true]
    rcases hs : (pySplit c)[2]? with _ | tok
    · simp [hs, isSearchClick]
    · simp only [hs]
      rcases hi : pyInt tok with _ | n
      · simp [hi, isSearchClick]
      · simp only [hi]
        rcases hp : env.deepthink_content_panels with _ | panels
        · simp [hp, isSearchClick]
        · simp only [hp]
          rcases hl : panels.getLast? with _ | ps
          · simp [hl, isSearchClick]
          · simp only [hl]
            constructor
            · intro e he
              simp only [List.nil_append, List.mem_singleton] at he
              subst he; rfl
            · intro acc' h
              simp only [Except.ok.injEq] at h
              subst h
              rfl
  · simp only [Bool.not_eq_true] at hth
    simp only [hth, Bool.false_eq_true, if_false]
    constructor
    · intro e he; simp at he
    · intro acc' h
      simp only [Except.ok.injEq] at h
      subst h; rfl

theorem processChildren_no_click (env : Env) (d : Bool) :
    ∀ (cs : List String) (acc : ExtractAcc),
    (∀ e ∈ (processChildren env false d acc cs).2, isSearchClick e = false) ∧
    (∀ acc', (processChildren env false d acc cs).1 = .ok acc' →
      acc'.search_results = acc.search_results) := by
  intro cs
  induction cs with
  | nil =>
    intro acc
    constructor
    · intro e he; simp [processChildren] at he
    · intro acc' h
      simp only [processChildren, Except.ok.injEq] at h
      subst h; rfl
  | cons c cs ih =>
    intro acc
    rcases hp : processChild env false d acc c with ⟨r1, evs1⟩
    have hchild := processChild_no_click env d acc c
    rw [hp] at hchild
    rcases r1 with e1 | acc1
    · constructor
      · intro e he
        simp only [processChildren, hp] at he
        exact hchild.1 e he
      · intro acc' h
        simp only [processChildren, hp] at h
        cases h
    · rcases hq : processChildren env false d acc1 cs with ⟨r2, evs2⟩
      have hrest := ih acc1
      rw [hq] at hrest
      constructor
      · intro e he
        simp only [processChildren, hp, hq, List.mem_append] at he
        rcases he with he | he
        · exact hchild.1 e he
        · exact hrest.1 e he
      · intro acc' h
        simp only [processChildren, hp, hq] at h
        have h1 := hrest.2 acc' h
        have h2 := hchild.2 acc1 rfl
        rw [h1, h2]

theorem processChild_both_or_neither (env : Env) (s d : Bool) (acc : ExtractAcc) (c : String)
    (h : acc.deepthink_duration.isSome = acc.deepthink_content.isSome) :
    ∀ acc', (processChild env s d acc c).1 = .ok acc' →
      acc'.deepthink_duration.isSome = acc'.deepthink_content.isSome := by
  intro acc' hok
  unfold processChild at hok
  by_cases hf : (matchFoundResults (pyToLower c) && s) = true
  · simp only [hf, if_true] at hok
    rcases hsp : env.search_results_panels with _ | panels
    · simp [hsp] at hok
    · simp only [hsp] at hok
      rcases hl : panels.getLast? with _ | panel
      · simp [hl] at hok
      · simp only [hl] at hok
        rcases hg : panel[1]? with _ | entries
        · simp [hg] at hok
        · simp only [hg] at hok
          rcases hfl : _filter_search_results entries with e1 | rs
          · simp [hfl] at hok
          · simp only [hfl] at hok
            by_cases hth : (matchThoughtSeconds (pyToLower c) && d) = true
            · simp only [hth, if_true] at hok
              rcases hs2 : (pySplit c)[2]? with _ | tok
              · simp [hs2] at hok
              · simp only [hs2] at hok
                rcases hi : pyInt tok with _ | n
                · simp [hi] at hok
                · simp only [hi] at hok
                  rcases hp : env.deepthink_content_panels with _ | panels2
                  · simp [hp] at hok
                  · simp only [hp] at hok
                    rcases hl2 : panels2.getLast? with _ | ps
                    · simp [hl2] at hok
                    · simp only [hl2, Except.ok.injEq] at hok
                      subst hok
                      rfl
            · simp only [Bool.not_eq_true] at hth
              simp only [hth, Bool.false_eq_true, if_false, Except.ok.injEq] at hok
              subst hok
              exact h
  · simp only [Bool.not_eq_true] at hf
    simp only [hf, Bool.false_eq_true, if_false] at hok
    by_cases hth : (matchThoughtSeconds (pyToLower c) && d) = true
    · simp only [hth, if_true] at hok
      rcases hs2 : (pySplit c)[2]? with _ | tok
      · simp [hs2] at hok
      · simp only [hs2] at hok
        rcases hi : pyInt tok with _ | n
        · simp [hi] at hok
        · simp only [hi] at hok
          rcases hp : env.deepthink_content_panels with _ | panels2
          · simp [hp] at hok
          · simp only [hp] at hok
            rcases hl2 : panels2.getLast? with _ | ps
            · simp [hl2] at hok
            · simp only [hl2, Except.ok.injEq] at hok
              subst hok
              rfl
    · simp only [Bool.not_eq_true] at hth
      simp only [hth, Bool.false_eq_true, if_false, Except.ok.injEq] at hok
      subst hok
      exact h

theorem processChildren_both_or_neither (env : Env) (s d : Bool) :
    ∀ (cs : List String) (acc : ExtractAcc),
    acc.deepthink_duration.isSome = acc.deepthink_content.isSome →
    ∀ acc', (processChildren env s d acc cs).1 = .ok acc' →
      acc'.deepthink_duration.isSome = acc'.deepthink_content.isSome := by
  intro cs
  induction cs with
  | nil =>
    intro acc h acc' hok
    simp only [processChildren, Except.ok.injEq] at hok
    subst hok; exact h
  | cons c cs ih =>
    intro acc h acc' hok
    rcases hp : processChild env s d acc c with ⟨r1, evs1⟩
    rcases r1 with e1 | acc1
    · simp only [processChildren, hp] at hok
      cases hok
    · rcases hq : processChildren env s d acc1 cs with ⟨r2, evs2⟩
      simp only [processChildren, hp, hq] at hok
      have h1 : acc1.deepthink_duration.isSome = acc1.deepthink_content.isSome := by
        have := processChild_both_or_neither env s d acc c h acc1
        rw [hp] at this
        exact this rfl
      have := ih acc1 h1 acc'
      rw [hq] at this
      exact this hok

theorem except_map_some_ok {x : Except PyError Response} {r : Response}
    (h : x.map some = .ok (some r)) : x = .ok r := by
  cases x with
  | error e => simp [Except.map] at h
  | ok v =>
    simp only [Except.map, Except.ok.injEq, Option.some.injEq] at h
    rw [h]

theorem phase1Poll_no_click {e : Event} (h : isPhase1Poll e = true) :
    isSearchClick e = false := by
  cases e <;> first | rfl | simp [isPhase1Poll] at h

theorem extractResponse_sentinel (env : Env) (st : SessionState) (el : RespElem)
    (h : pyToLower (response_text_of el) = busySentinel) :
    extractResponse env st el = (.error .serverDown, []) := by
  simp [extractResponse, h]

theorem extractResponse_ok (env : Env) (st : SessionState) (el : RespElem)
    (r : Response) (evs : List Event)
    (h : extractResponse env st el = (.ok r, evs)) :
    r.text = response_text_of el ∧ r.chat_id = st._chat_id ∧
    pyToLower r.text ≠ busySentinel := by
  by_cases hs : pyToLower (response_text_of el) = busySentinel
  · simp [extractResponse, hs] at h
  · rcases hp : processChildren env st.search_enabled st.deepthink_enabled
        ⟨none, none, none⟩ ((el.children.drop 1).take 2) with ⟨r1, evs1⟩
    simp only [extractResponse, hs, if_false, hp] at h
    rcases r1 with e1 | acc
    · cases h
    · simp only [Prod.mk.injEq, Except.ok.injEq] at h
      rcases h with ⟨h1, h2⟩
      subst h1
      exact ⟨rfl, rfl, hs⟩

theorem extractResponse_both_or_neither (env : Env) (st : SessionState) (el : RespElem)
    (r : Response) (evs : List Event)
    (h : extractResponse env st el = (.ok r, evs)) :
    r.deepthink_duration.isSome = r.deepthink_content.isSome := by
  by_cases hs : pyToLower (response_text_of el) = busySentinel
  · simp [extractResponse, hs] at h
  · rcases hp : processChildren env st.search_enabled st.deepthink_enabled
        ⟨none, none, none⟩ ((el.children.drop 1).take 2) with ⟨r1, evs1⟩
    simp only [extractResponse, hs, if_false, hp] at h
    rcases r1 with e1 | acc
    · cases h
    · simp only [Prod.mk.injEq, Except.ok.injEq] at h
      rcases h with ⟨h1, h2⟩
      subst h1
      have := processChildren_both_or_neither env st.search_enabled st.deepthink_enabled
        ((el.children.drop 1).take 2) ⟨none, none, none⟩ rfl acc
      rw [hp] at this
      exact this rfl

theorem extractResponse_no_click (env : Env) (st : SessionState) (el : RespElem)
    (hsearch : st.search_enabled = false) :
    (∀ e ∈ (extractResponse env st el).2, isSearchClick e = false) ∧
    (∀ r, (extractResponse env st el).1 = .ok r → r.search_results = none) := by
  by_cases hs : pyToLower (response_text_of el) = busySentinel
  · constructor
    · intro e he; simp [extractResponse, hs] at he
    · intro r h; simp [extractResponse, hs] at h
  · rcases hp : processChildren env st.search_enabled st.deepthink_enabled
        ⟨none, none, none⟩ ((el.children.drop 1).take 2) with ⟨r1, evs1⟩
    have hpc := processChildren_no_click env st.deepthink_enabled
      ((el.children.drop 1).take 2) ⟨none, none, none⟩
    rw [hsearch] at hp
    rw [hp] at hpc
    rcases r1 with e1 | acc
    · constructor
      · intro e he
        simp only [extractResponse, hs, if_false, hsearch, hp] at he
        exact hpc.1 e he
      · intro r h
        simp only [extractResponse, hs, if_false, hsearch, hp] at h
        cases h
    · constructor
      · intro e he
        simp only [extractResponse, hs, if_false, hsearch, hp] at he
        exact hpc.1 e he
      · intro r h
        simp only [extractResponse, hs, if_false, hsearch, hp, Except.ok.injEq] at h
        subst h
        exact hpc.2 acc rfl

theorem get_response_ok_extract (st : SessionState) (env : Env) (timeout : Nat)
    (regen : Bool) (r : Response)
    (h : (_get_response st env timeout regen).result = .ok (some r)) :
    ∃ el evs, extractResponse env st el = (.ok r, evs) := by
  by_cases hinit : st.initialized = true
  · rcases h1 : waitGenerationStarted env regen timeout 0 timeout with ⟨o1, evs1⟩
    rcases o1 with _ | t1
    · simp [_get_response, hinit, h1] at h
    · rcases h2 : waitGenerationCompleted env timeout t1 (timeout - t1) with ⟨o2, evs2⟩
      rcases o2 with _ | ⟨t2, l⟩
      · simp [_get_response, hinit, h1, h2] at h
      · cases regen with
        | false =>
          rcases hl : l.getLast? with _ | last
          · simp [_get_response, hinit, h1, h2, hl] at h
          · rcases hex : extractResponse env st last with ⟨r4, evs4⟩
            simp only [_get_response, hinit, Bool.not_true, Bool.false_eq_true, if_false,
              h1, h2, hl, hex] at h
            exact ⟨last, evs4, by rw [hex, except_map_some_ok h]⟩
        | true =>
          rcases h3 : waitToolbarReady env timeout t2 (timeout - t2) with ⟨o3, evs3⟩
          rcases o3 with e3 | o3
          · simp [_get_response, hinit, h1, h2, h3] at h
          · rcases o3 with _ | ⟨t3, l3⟩
            · simp [_get_response, hinit, h1, h2, h3] at h
            · rcases hl : l3.getLast? with _ | last
              · simp [_get_response, hinit, h1, h2, h3, hl] at h
              · rcases hex : extractResponse env st last with ⟨r4, evs4⟩
                simp only [_get_response, hinit, Bool.not_true, Bool.false_eq_true, if_false,
                  if_true, h1, h2, h3, hl, hex] at h
                exact ⟨last, evs4, by rw [hex, except_map_some_ok h]⟩
  · rw [Bool.not_eq_true] at hinit
    simp [_get_response, hinit] at h

theorem get_response_no_click (st : SessionState) (env : Env) (timeout : Nat)
    (regen : Bool) (hsearch : st.search_enabled = false) :
    ∀ e ∈ (_get_response st env timeout regen).events, isSearchClick e = false := by
  intro e he
  by_cases hinit : st.initialized = true
  · rcases h1 : waitGenerationStarted env regen timeout 0 timeout with ⟨o1, evs1⟩
    have hevs1 : ∀ x ∈ evs1, isSearchClick x = false := by
      intro x hx
      have := waitGenerationStarted_events env regen timeout timeout 0 x
      rw [h1] at this
      exact phase1Poll_no_click (this hx)
    rcases o1 with _ | t1
    · simp only [_get_response, hinit, Bool.not_true, Bool.false_eq_true, if_false, h1] at he
      exact hevs1 e he
    · rcases h2 : waitGenerationCompleted env timeout t1 (timeout - t1) with ⟨o2, evs2⟩
      have hevs2 : ∀ x ∈ evs2, isSearchClick x = false := by
        intro x hx
        have := waitGenerationCompleted_no_click env timeout (timeout - t1) t1 x
        rw [h2] at this
        exact this hx
      rcases o2 with _ | ⟨t2, l⟩
      · simp only [_get_response, hinit, Bool.not_true, Bool.false_eq_true, if_false, h1, h2,
          List.mem_append] at he
        rcases he with he | he
        · exact hevs1 e he
        · exact hevs2 e he
      · cases regen with
        | false =>
          rcases hl : l.getLast? with _ | last
          · simp only [_get_response, hinit, Bool.not_true, Bool.false_eq_true, if_false, h1,
              h2, hl, List.mem_append] at he
            rcases he with he | he
            · exact hevs1 e he
            · exact hevs2 e he
          · rcases hex : extractResponse env st last with ⟨r4, evs4⟩
            have hevs4 : ∀ x ∈ evs4, isSearchClick x = false := by
              intro x hx
              have := (extractResponse_no_click env st last hsearch).1 x
              rw [hex] at this
              exact this hx
            simp only [_get_response, hinit, Bool.not_true, Bool.false_eq_true, if_false, h1,
              h2, hl, hex, List.mem_append] at he
            rcases he with (he | he) | he
            · exact hevs1 e he
            · exact hevs2 e he
            · exact hevs4 e he
        | true =>
          rcases h3 : waitToolbarReady env timeout t2 (timeout - t2) with ⟨o3, evs3⟩
          have hevs3 : ∀ x ∈ evs3, isSearchClick x = false := by
            intro x hx
            have := waitToolbarReady_no_click env timeout (timeout - t2) t2 x
            rw [h3] at this
            exact this hx
          rcases o3 with e3 | o3
          · simp only [_get_response, hinit, Bool.not_true, Bool.false_eq_true, if_false,
              if_true, h1, h2, h3, List.mem_append] at he
            rcases he with (he | he) | he
            · exact hevs1 e he
            · exact hevs2 e he
            · exact hevs3 e he
          · rcases o3 with _ | ⟨t3, l3⟩
            · simp only [_get_response, hinit, Bool.not_true, Bool.false_eq_true, if_false,
                if_true, h1, h2, h3, List.mem_append] at he
              rcases he with (he | he) | he
              · exact hevs1 e he
              · exact hevs2 e he
              · exact hevs3 e he
            · rcases hl : l3.getLast? with _ | last
              · simp only [_get_response, hinit, Bool.not_true, Bool.false_eq_true, if_false,
                  if_true, h1, h2, h3, hl, List.mem_append] at he
                rcases he with (he | he) | he
                · exact hevs1 e he
                · exact hevs2 e he
                · exact hevs3 e he
              · rcases hex : extractResponse env st last with ⟨r4, evs4⟩
                have hevs4 : ∀ x ∈ evs4, isSearchClick x = false := by
                  intro x hx
                  have := (extractResponse_no_click env st last hsearch).1 x
                  rw [hex] at this
                  exact this hx
                simp only [_get_response, hinit, Bool.not_true, Bool.false_eq_true, if_false,
                  if_true, h1, h2, h3, hl, hex, List.mem_append] at he
                rcases he with ((he | he) | he) | he
                · exact hevs1 e he
                · exact hevs2 e he
                · exact hevs3 e he
                · exact hevs4 e he
  · rw [Bool.not_eq_true] at hinit
    simp [_get_response, hinit] at he

/-! ### Claim theorems -/

/-- C1: for every `_get_response` call in which the phase-1 generation
indicator (the generating selector for a fresh send, the regenerating
selector for a regeneration) is never observed before the shared deadline,
the call returns `None` rather than raising, and every browser operation it
performed was a phase-1 poll — no phase-2 completion poll, phase-3 toolbar
wait or phase-4 extraction operation is ever attempted. -/
theorem phase1_timeout_returns_null_skips_later_phases
    (st : SessionState) (env : Env) (timeout : Nat) (regen : Bool)
    (hinit : st.initialized = true)
    (hnever : ∀ t, t < timeout →
      (if regen then env.regen_loading_icon t else env.response_generating t) = false) :
    (_get_response st env timeout regen).result = .ok none ∧
    ∀ e ∈ (_get_response st env timeout regen).events, isPhase1Poll e = true := by
  rcases h1 : waitGenerationStarted env regen timeout 0 timeout with ⟨o1, evs1⟩
  have hnone : o1 = none := by
    have := waitGenerationStarted_none env regen timeout hnever timeout 0
    rw [h1] at this; exact this
  subst hnone
  constructor
  · simp [_get_response, hinit, h1]
  · intro e he
    simp only [_get_response, hinit, Bool.not_true, Bool.false_eq_true, if_false, h1] at he
    have := waitGenerationStarted_events env regen timeout timeout 0 e
    rw [h1] at this
    exact this he

/-- Witness for C1 at a concrete input: an initialized session, an
environment whose generating indicator never appears, a 3-tick deadline. -/
theorem phase1_timeout_returns_null_skips_later_phases_witness :
    initState.initialized = true ∧
    (∀ t, t < 3 →
      (if false then envNever.regen_loading_icon t else envNever.response_generating t) = false) ∧
    (_get_response initState envNever 3 false).result = .ok none ∧
    (∀ e ∈ (_get_response initState envNever 3 false).events, isPhase1Poll e = true) := by
  refine ⟨rfl, fun t _ => rfl, ?_, ?_⟩
  · exact (phase1_timeout_returns_null_skips_later_phases initState envNever 3 false rfl
      (fun t _ => rfl)).1
  · exact (phase1_timeout_returns_null_skips_later_phases initState envNever 3 false rfl
      (fun t _ => rfl)).2

/-- C2: the spec says a reasoning label `"Thought for 12.5 seconds"` yields
`reasoningDurationSeconds = 12` (third token truncated to an integer), and
the source's regex `thought for \d+(\.\d+)? seconds` deliberately accepts a
fractional duration — but `int(child.text.split()[2])` then raises
`ValueError` on `"12.5"`, so the call aborts with an exception instead.
With an integer label the same run succeeds with duration 12, showing the
failure is precisely the fractional case the regex admits. -/
theorem fractional_thought_label_raises_value_error :
    (_get_response deepthinkState envThoughtFrac 5 false).result = .error .valueError ∧
    (_get_response deepthinkState envThoughtInt 5 false).result = .ok (some thoughtIntResp) := by
  constructor
  · rfl
  · rfl

/-- C3 counterexample: a completed element with zero markdown blocks does
not yield a null result — the engine returns a successful `Response` whose
`text` is the empty string. -/
theorem empty_completion_returns_zero_length_success :
    (_get_response initState envEmptyBlocks 5 false).result = .ok (some emptyTextResp) ∧
    emptyTextResp.text = "" := by
  constructor
  · rfl
  · rfl

/-- C3 amended: a null result does arise when the completed-response
collection is never non-empty before the deadline (absent completion), but
an empty completion — a completed element with zero markdown blocks — is a
zero-length success, not null. -/
theorem absent_completion_returns_null
    (st : SessionState) (env : Env) (timeout : Nat) (regen : Bool)
    (hinit : st.initialized = true)
    (hempty : ∀ t, env.response_generated t = none ∨ env.response_generated t = some []) :
    (_get_response st env timeout regen).result = .ok none ∧
    (_get_response initState envEmptyBlocks 5 false).result = .ok (some emptyTextResp) := by
  refine ⟨?_, by rfl⟩
  rcases h1 : waitGenerationStarted env regen timeout 0 timeout with ⟨o1, evs1⟩
  rcases o1 with _ | t1
  · simp [_get_response, hinit, h1]
  · rcases h2 : waitGenerationCompleted env timeout t1 (timeout - t1) with ⟨o2, evs2⟩
    have hnone : o2 = none := by
      have := waitGenerationCompleted_none env timeout hempty (timeout - t1) t1
      rw [h2] at this; exact this
    subst hnone
    simp [_get_response, hinit, h1, h2]

/-- Witness for C3's amended theorem: with the collection always raising,
the call returns null. -/
theorem absent_completion_returns_null_witness :
    initState.initialized = true ∧
    (∀ t, envBase.response_generated t = none ∨ envBase.response_generated t = some []) ∧
    (_get_response initState envBase 4 false).result = .ok none := by
  refine ⟨rfl, fun t => Or.inl rfl, ?_⟩
  exact (absent_completion_returns_null initState envBase 4 false rfl (fun t => Or.inl rfl)).1

/-- C4: whenever the extracted response text case-insensitively equals the
busy sentinel, the call fails with `ServerDown` instead of returning a
result, for every session state (hence regardless of the reasoning and
search mode flags); consequently no successful engine result ever carries
the sentinel text, and a full engine run over a busy completion raises
`ServerDown`. -/
theorem busy_sentinel_raises_server_down :
    (∀ (env : Env) (st : SessionState) (el : RespElem),
      pyToLower (response_text_of el) = busySentinel →
      extractResponse env st el = (.error .serverDown, [])) ∧
    (∀ (st : SessionState) (env : Env) (timeout : Nat) (regen : Bool) (r : Response),
      (_get_response st env timeout regen).result = .ok (some r) →
      pyToLower r.text ≠ busySentinel) ∧
    (_get_response initState envBusy 5 false).result = .error .serverDown := by
  refine ⟨?_, ?_, by rfl⟩
  · intro env st el h
    exact extractResponse_sentinel env st el h
  · intro st env timeout regen r h
    obtain ⟨el, evs, hex⟩ := get_response_ok_extract st env timeout regen r h
    exact (extractResponse_ok env st el r evs hex).2.2

/-- Witness for C4: the busy element's text is the sentinel and extraction
fails with `ServerDown`; the concrete empty-blocks success does not carry
the sentinel. -/
theorem busy_sentinel_raises_server_down_witness :
    pyToLower (response_text_of busyElem) = busySentinel ∧
    extractResponse envBase initState busyElem = (.error .serverDown, []) ∧
    ((_get_response initState envEmptyBlocks 5 false).result = .ok (some emptyTextResp) ∧
      pyToLower emptyTextResp.text ≠ busySentinel) := by
  refine ⟨rfl, ?_, by rfl, ?_⟩
  · exact busy_sentinel_raises_server_down.1 envBase initState busyElem rfl
  · exact busy_sentinel_raises_server_down.2.1 initState envEmptyBlocks 5 false
      emptyTextResp (by rfl)

/-- C5: in every `Response` the engine returns, the reasoning fields
`deepthink_duration` and `deepthink_content` are both present or both
absent, never exactly one of the two. -/
theorem deepthink_fields_both_or_neither
    (st : SessionState) (env : Env) (timeout : Nat) (regen : Bool) (r : Response)
    (h : (_get_response st env timeout regen).result = .ok (some r)) :
    r.deepthink_duration.isSome = r.deepthink_content.isSome := by
  obtain ⟨el, evs, hex⟩ := get_response_ok_extract st env timeout regen r h
  exact extractResponse_both_or_neither env st el r evs hex

/-- Witness for C5 at a concrete run where both reasoning fields are
present. -/
theorem deepthink_fields_both_or_neither_witness :
    (_get_response deepthinkState envThoughtInt 5 false).result = .ok (some thoughtIntResp) ∧
    thoughtIntResp.deepthink_duration.isSome = thoughtIntResp.deepthink_content.isSome := by
  refine ⟨by rfl, ?_⟩
  exact deepthink_fields_both_or_neither deepthinkState envThoughtInt 5 false
    thoughtIntResp (by rfl)

/-- C6: the wait-deadline budget `send_message` hands to the engine equals
the caller-supplied base timeout plus exactly 20 seconds when and only when
deepthink is requested, plus exactly 60 seconds when and only when search
is requested; and an initialized `send_message` call delegates to
`_get_response` with exactly that budget. -/
theorem send_message_effective_timeout (timeout : Nat) (deepthink search : Bool) :
    effectiveTimeout timeout deepthink search
      = timeout + 20 * (if deepthink then 1 else 0) + 60 * (if search then 1 else 0) ∧
    (∀ (st : SessionState) (env : Env) (message : String) (slow_mode : Bool),
      st.initialized = true →
      (send_message st env message slow_mode deepthink search timeout).result
        = (_get_response (applyToggles st deepthink search).2 env
            (effectiveTimeout timeout deepthink search) false).result) := by
  constructor
  · cases deepthink <;> cases search <;> simp [effectiveTimeout]
  · intro st env message slow_mode hinit
    rcases ht : applyToggles st deepthink search with ⟨toggleEvs, st1⟩
    rcases hg : _get_response st1 env (effectiveTimeout timeout deepthink search) false
      with ⟨r, st2, evs⟩
    simp [send_message, hinit, ht, hg]

/-- Witness for C6 at base 30 with deepthink on and search off, over a
concrete initialized send. -/
theorem send_message_effective_timeout_witness :
    effectiveTimeout 30 true false = 30 + 20 * 1 + 60 * 0 ∧
    (initState.initialized = true ∧
      (send_message initState envBase "hello" false true false 30).result
        = (_get_response (applyToggles initState true false).2 envBase
            (effectiveTimeout 30 true false) false).result) := by
  refine ⟨?_, rfl, ?_⟩
  · exact (send_message_effective_timeout 30 true false).1
  · exact (send_message_effective_timeout 30 true false).2 initState envBase "hello" false rfl

/-- C7: `send_message` clicks the deepthink (resp. search) toggle exactly
when the requested mode differs from the stored flag, and after the toggle
section each stored flag equals the requested mode — a toggle already in
the requested state is neither clicked nor has its flag changed. -/
theorem toggle_clicked_iff_mode_differs (st : SessionState) (deepthink search : Bool) :
    (Event.clickDeepthinkToggle ∈ (applyToggles st deepthink search).1
      ↔ deepthink ≠ st.deepthink_enabled) ∧
    (Event.clickSearchToggle ∈ (applyToggles st deepthink search).1
      ↔ search ≠ st.search_enabled) ∧
    ((applyToggles st deepthink search).2).deepthink_enabled = deepthink ∧
    ((applyToggles st deepthink search).2).search_enabled = search := by
  rcases hd : st.deepthink_enabled with _ | _ <;>
    rcases hs : st.search_enabled with _ | _ <;>
      cases deepthink <;> cases search <;>
        simp [applyToggles, hd, hs]

/-- C8: when the stored search flag is off, the search branch is skipped
entirely for every affordance-slot child — even one whose label matches
`found <N> results` — so the engine never issues a click on a child and
every successful result carries no `search_results`. -/
theorem search_flag_off_skips_search_branch
    (st : SessionState) (env : Env) (timeout : Nat) (regen : Bool)
    (hsearch : st.search_enabled = false) :
    (∀ e ∈ (_get_response st env timeout regen).events, isSearchClick e = false) ∧
    (∀ r, (_get_response st env timeout regen).result = .ok (some r) →
      r.search_results = none) := by
  constructor
  · exact get_response_no_click st env timeout regen hsearch
  · intro r h
    obtain ⟨el, evs, hex⟩ := get_response_ok_extract st env timeout regen r h
    have := (extractResponse_no_click env st el hsearch).2 r
    rw [hex] at this
    exact this rfl

/-- Witness for C8: a run over a completion whose affordance label is
`"Found 3 results"` while the stored search flag is off: no click event is
issued and the result carries no search results. -/
theorem search_flag_off_skips_search_branch_witness :
    initState.search_enabled = false ∧
    (∀ e ∈ (_get_response initState envFound 5 false).events, isSearchClick e = false) ∧
    (∀ r, (_get_response initState envFound 5 false).result = .ok (some r) →
      r.search_results = none) := by
  refine ⟨rfl, ?_, ?_⟩
  · exact (search_flag_off_skips_search_branch initState envFound 5 false rfl).1
  · exact (search_flag_off_skips_search_branch initState envFound 5 false rfl).2

/-- C9: every browser-touching operation of the session object —
`send_message`, `regenerate_response`, `retrieve_token`, `reset_chat`,
`logout`, `switch_account`, `delete_chats`, `switch_chat`, `switch_theme`
and the internal `_get_response` — raises `MissingInitialization` when
invoked before initialization has completed, performing no browser
interaction (empty event log) and leaving the session state unchanged. -/
theorem uninitialized_operations_raise_missing_initialization
    (st : SessionState) (env : Env) (message : String)
    (slow_mode deepthink search regen : Bool) (timeout : Nat)
    (token email password : Option String) (chat_id theme : String)
    (h : st.initialized = false) :
    send_message st env message slow_mode deepthink search timeout
      = ⟨.error .missingInitialization, st, []⟩ ∧
    regenerate_response st env timeout = ⟨.error .missingInitialization, st, []⟩ ∧
    retrieve_token st env = ⟨.error .missingInitialization, st, []⟩ ∧
    reset_chat st = ⟨.error .missingInitialization, st, []⟩ ∧
    logout st = ⟨.error .missingInitialization, st, []⟩ ∧
    switch_account st env token email password = ⟨.error .missingInitialization, st, []⟩ ∧
    delete_chats st env = ⟨.error .missingInitialization, st, []⟩ ∧
    switch_chat st env chat_id = ⟨.error .missingInitialization, st, []⟩ ∧
    switch_theme st theme = ⟨.error .missingInitialization, st, []⟩ ∧
    _get_response st env timeout regen = ⟨.error .missingInitialization, st, []⟩ := by
  refine ⟨?_, ?_, ?_, ?_, ?_, ?_, ?_, ?_, ?_, ?_⟩ <;>
    simp [send_message, regenerate_response, retrieve_token, reset_chat, logout,
      switch_account, delete_chats, switch_chat, switch_theme, _get_response, h]

/-- Witness for C9 at a concrete uninitialized session. -/
theorem uninitialized_operations_raise_missing_initialization_witness :
    uninitState.initialized = false ∧
    send_message uninitState envBase "hi" false false false 60
      = ⟨.error .missingInitialization, uninitState, []⟩ ∧
    regenerate_response uninitState envBase 60
      = ⟨.error .missingInitialization, uninitState, []⟩ ∧
    retrieve_token uninitState envBase = ⟨.error .missingInitialization, uninitState, []⟩ ∧
    reset_chat uninitState = ⟨.error .missingInitialization, uninitState, []⟩ ∧
    logout uninitState = ⟨.error .missingInitialization, uninitState, []⟩ ∧
    switch_account uninitState envBase (some "t") none none
      = ⟨.error .missingInitialization, uninitState, []⟩ ∧
    delete_chats uninitState envBase = ⟨.error .missingInitialization, uninitState, []⟩ ∧
    switch_chat uninitState envBase "c1" = ⟨.error .missingInitialization, uninitState, []⟩ ∧
    switch_theme uninitState "dark" = ⟨.error .missingInitialization, uninitState, []⟩ ∧
    _get_response uninitState envBase 60 false
      = ⟨.error .missingInitialization, uninitState, []⟩ := by
  have hall := uninitialized_operations_raise_missing_initialization uninitState envBase
    "hi" false false false false 60 (some "t") none none "c1" "dark" rfl
  exact ⟨rfl, hall.1, hall.2.1, hall.2.2.1, hall.2.2.2.1, hall.2.2.2.2.1,
    hall.2.2.2.2.2.1, hall.2.2.2.2.2.2.1, hall.2.2.2.2.2.2.2.1,
    hall.2.2.2.2.2.2.2.2.1, hall.2.2.2.2.2.2.2.2.2⟩

/-- C10: `reset_chat` leaves the private conversation identity `_chat_id`
unchanged — it assigns the empty string to the distinct attribute named
`chat_id` — so every `Response` produced by the engine after a `reset_chat`
still carries the pre-reset conversation id. -/
theorem reset_chat_preserves_private_chat_id
    (st : SessionState) (env : Env) (timeout : Nat) (regen : Bool) (r : Response)
    (hinit : st.initialized = true) :
    ((reset_chat st).state)._chat_id = st._chat_id ∧
    ((reset_chat st).state).chat_id_attr = some "" ∧
    ((_get_response (reset_chat st).state env timeout regen).result = .ok (some r) →
      r.chat_id = st._chat_id) := by
  have hstate : (reset_chat st).state = { st with chat_id_attr := some "" } := by
    simp [reset_chat, hinit]
  refine ⟨by rw [hstate], by rw [hstate], ?_⟩
  intro h
  obtain ⟨el, evs, hex⟩ := get_response_ok_extract _ env timeout regen r h
  have := (extractResponse_ok env _ el r evs hex).2.1
  rw [this, hstate]

/-- Witness for C10: after resetting the concrete session, a full engine
run still produces a `Response` carrying the pre-reset id `"chat0"`. -/
theorem reset_chat_preserves_private_chat_id_witness :
    initState.initialized = true ∧
    ((reset_chat initState).state)._chat_id = initState._chat_id ∧
    ((reset_chat initState).state).chat_id_attr = some "" ∧
    ((_get_response (reset_chat initState).state envEmptyBlocks 5 false).result
        = .ok (some emptyTextResp) ∧
      emptyTextResp.chat_id = initState._chat_id) := by
  have hall := reset_chat_preserves_private_chat_id initState envEmptyBlocks 5 false
    emptyTextResp rfl
  exact ⟨rfl, hall.1, hall.2.1, by rfl, hall.2.2 (by rfl)⟩

end DeeperSeek
